import Mathlib

/-!
Shallow embedding of the blog view layer (`blogicum/blog/views.py`):
the visibility filter, ownership guards, listing querysets, the detail
gate, and the comment-creation flow, with theorems checking the
specification's claims about them.

Conventions of the embedding:
* A viewer is `Option UserT`: `none` is the anonymous request user
  (Django's `AnonymousUser`, for which `user.is_authenticated` is false
  and which never equals a post's author), `some u` an authenticated user.
* Foreign keys are embedded as the joined row (`Post.author : UserT`,
  `Post.category : Category`), matching the `select_related` joins;
  a comparison `Q(author=user)` compares primary keys, so it is embedded
  as equality of the `id` fields.
* `timezone.now()` is a parameter `now : Nat` fixed per request.
* A queryset is a `List Post`; chaining `.filter` composes `List.filter`,
  and `order_by("-pub_date")` is a stable insertion sort applied to the
  final filtered list, which is how the ORM emits the SQL
  (`WHERE ... ORDER BY pub_date DESC`).
-/

structure UserT where
  id : Nat
  username : String
deriving DecidableEq, Repr

structure Category where
  id : Nat
  slug : String
  is_published : Bool
deriving DecidableEq, Repr

structure Post where
  id : Nat
  title : String
  text : String
  author : UserT
  category : Category
  pub_date : Nat
  is_published : Bool
deriving DecidableEq, Repr

structure Comment where
  id : Nat
  text : String
  author : UserT
  postId : Nat
deriving DecidableEq, Repr

/-- The database state the views read and write. -/
structure DB where
  posts : List Post
  categories : List Category
  comments : List Comment
  nextCommentId : Nat
deriving DecidableEq, Repr

/-- The conjunction `Q(is_published=True) & Q(pub_date__lte=now) & Q(category__is_published=True)`
used in `get_published_posts` (views.py lines 23-29). -/
def publishedPred (now : Nat) (p : Post) : Bool :=
  p.is_published && decide (p.pub_date ≤ now) && p.category.is_published

/-- Embedding of `get_published_posts` (views.py lines 23-29). -/
def get_published_posts (now : Nat) (queryset : List Post) : List Post :=
  queryset.filter (publishedPred now)

/-- Embedding of `get_visible_posts` (views.py lines 31-39).  Python's `&`
binds tighter than `|`, so the filter for an authenticated user is
`author=user OR (is_published AND pub_date <= now AND category.is_published)`. -/
def get_visible_posts (now : Nat) (queryset : List Post) (user : Option UserT) : List Post :=
  match user with
  | some u => queryset.filter (fun p => p.author.id == u.id || publishedPred now p)
  | none => get_published_posts now queryset

/-- The visibility predicate as a single boolean test, for stating theorems. -/
def visiblePred (user : Option UserT) (now : Nat) (p : Post) : Bool :=
  match user with
  | some u => p.author.id == u.id || publishedPred now p
  | none => publishedPred now p

theorem get_visible_posts_eq_filter (now : Nat) (qs : List Post) (user : Option UserT) :
    get_visible_posts now qs user = qs.filter (visiblePred user now) := by
  cases user <;> rfl

/-- C1: for an authenticated viewer, the visibility filter keeps exactly
the posts that the viewer authored or that satisfy all three publication
conditions; the author disjunct is a standalone disjunct, not conjoined
with the publication conditions. -/
theorem visible_posts_authenticated_iff (qs : List Post) (u : UserT) (now : Nat) (p : Post) :
    p ∈ get_visible_posts now qs (some u) ↔
      p ∈ qs ∧ (p.author.id = u.id ∨
        (p.is_published = true ∧ p.pub_date ≤ now ∧ p.category.is_published = true)) := by
  simp [get_visible_posts, publishedPred, List.mem_filter, and_assoc]

/-- C2: for an anonymous viewer, the visibility filter keeps exactly the
posts that are published, have a publication date not in the future, and
belong to a published category. -/
theorem visible_posts_anonymous_iff (qs : List Post) (now : Nat) (p : Post) :
    p ∈ get_visible_posts now qs none ↔
      p ∈ qs ∧ (p.is_published = true ∧ p.pub_date ≤ now ∧ p.category.is_published = true) := by
  simp [get_visible_posts, get_published_posts, publishedPred, List.mem_filter, and_assoc]

/-- C10: visibility is monotone in authentication: every post the
anonymous published-posts filter returns is also returned by the
visibility filter for any viewer. -/
theorem visible_posts_monotone (qs : List Post) (user : Option UserT) (now : Nat) (p : Post)
    (h : p ∈ get_published_posts now qs) : p ∈ get_visible_posts now qs user := by
  cases user with
  | none => exact h
  | some u =>
    rw [get_published_posts, List.mem_filter] at h
    rw [get_visible_posts, List.mem_filter]
    exact ⟨h.1, by simp [h.2]⟩

def pW : Post :=
  { id := 1, title := "t", text := "x"
    author := { id := 1, username := "alice" }
    category := { id := 1, slug := "c", is_published := true }
    pub_date := 5, is_published := true }

/-- Witness for C10 at a concrete input. -/
theorem visible_posts_monotone_witness :
    pW ∈ get_visible_posts 10 [pW] (some { id := 2, username := "bob" }) :=
  visible_posts_monotone [pW] (some { id := 2, username := "bob" }) 10 pW (by decide)

/-- The ordering `order_by("-pub_date")`: descending by publication date. -/
def pubDateGE (a b : Post) : Prop := b.pub_date ≤ a.pub_date

instance : DecidableRel pubDateGE := fun a b => Nat.decLe b.pub_date a.pub_date

instance : IsTotal Post pubDateGE := ⟨fun a b => Nat.le_total b.pub_date a.pub_date⟩

instance : IsTrans Post pubDateGE := ⟨fun _ _ _ h1 h2 => Nat.le_trans h2 h1⟩

/-- Embedding of `order_by("-pub_date")` as a stable sort (the ORM's sort
is applied by the database to the fully filtered row set). -/
def orderByPubDateDesc (l : List Post) : List Post :=
  List.insertionSort pubDateGE l

/-- `paginate_by = 10` on `PostListView` (views.py line 44). -/
def paginate_by : Nat := 10

/-- A paginator page (1-based), as Django's `Paginator` slices an ordered
queryset: page n holds items (n-1)*size .. n*size-1. -/
def paginatePage (size page : Nat) (l : List Post) : List Post :=
  (l.drop ((page - 1) * size)).take size

/-- Embedding of `PostListView.get_queryset` (views.py lines 46-50):
annotate (no field we track), restrict to visible posts, order descending. -/
def PostListView_queryset (db : DB) (user : Option UserT) (now : Nat) : List Post :=
  orderByPubDateDesc (get_visible_posts now db.posts user)

/-- The extra narrowing `HomePageView.get_queryset` applies on top of the
base queryset (views.py lines 58-62). -/
def homeFilter (now : Nat) (p : Post) : Bool :=
  decide (p.pub_date ≤ now) && p.is_published && p.category.is_published

/-- Embedding of `HomePageView.get_queryset` (views.py lines 56-62): the
base visible queryset further filtered; the ordering clause of the base
queryset is applied by the database to the composed filter. -/
def HomePageView_queryset (db : DB) (user : Option UserT) (now : Nat) : List Post :=
  orderByPubDateDesc ((get_visible_posts now db.posts user).filter (homeFilter now))

/-- The narrowing `CategoryView.get_queryset` applies (views.py lines
89-93): date, published flag and category slug, but not the category's
own published flag. -/
def categoryFilter (now : Nat) (slug : String) (p : Post) : Bool :=
  decide (p.pub_date ≤ now) && p.is_published && (p.category.slug == slug)

/-- Embedding of `CategoryView.get_queryset` (views.py lines 87-93). -/
def CategoryView_queryset (db : DB) (user : Option UserT) (now : Nat) (slug : String) :
    List Post :=
  orderByPubDateDesc ((get_visible_posts now db.posts user).filter (categoryFilter now slug))

/-- Embedding of the category route as a whole: `get_context_data`
(views.py lines 95-101) runs `get_object_or_404(Category, slug=...,
is_published=True)` while building the page, so the request renders a
post list only when a published category with that slug exists;
otherwise it ends in a 404 response (`none`). -/
def CategoryView_render (db : DB) (user : Option UserT) (now : Nat) (slug : String) :
    Option (List Post) :=
  if db.categories.any (fun c => c.slug == slug && c.is_published) then
    some (CategoryView_queryset db user now slug)
  else
    none

/-- Embedding of `ProfileView.get_queryset` (views.py lines 107-109):
the base visible queryset restricted to one author's username. -/
def ProfileView_queryset (db : DB) (user : Option UserT) (now : Nat) (username : String) :
    List Post :=
  orderByPubDateDesc
    ((get_visible_posts now db.posts user).filter (fun p => p.author.username == username))

theorem mem_orderByPubDateDesc (l : List Post) (p : Post) :
    p ∈ orderByPubDateDesc l ↔ p ∈ l :=
  (List.perm_insertionSort pubDateGE l).mem_iff

/-- C8: the profile listing for username u and viewer v holds exactly the
posts authored by u that satisfy the visibility predicate for v. -/
theorem profile_listing_iff (db : DB) (user : Option UserT) (now : Nat)
    (username : String) (p : Post) :
    p ∈ ProfileView_queryset db user now username ↔
      p ∈ db.posts ∧ p.author.username = username ∧ visiblePred user now p = true := by
  rw [ProfileView_queryset, mem_orderByPubDateDesc, get_visible_posts_eq_filter,
    List.mem_filter, List.mem_filter]
  simp [and_assoc, and_comm]

/-- C9: the home listing is viewer-independent: its narrowing implies the
publication conditions, so the author disjunct added for authenticated
viewers is absorbed and every viewer computes the same queryset. -/
theorem home_listing_viewer_independent (db : DB) (v1 v2 : Option UserT) (now : Nat) :
    HomePageView_queryset db v1 now = HomePageView_queryset db v2 now := by
  have key : ∀ v : Option UserT,
      (get_visible_posts now db.posts v).filter (homeFilter now) =
        db.posts.filter (fun p => homeFilter now p && visiblePred v now p) := by
    intro v
    rw [get_visible_posts_eq_filter, List.filter_filter]
  have absorb : ∀ (v : Option UserT) (p : Post),
      (homeFilter now p && visiblePred v now p) = homeFilter now p := by
    intro v p
    cases hp : p.is_published <;> cases hd : decide (p.pub_date ≤ now) <;>
      cases hc : p.category.is_published <;>
      cases v <;> simp [visiblePred, publishedPred, homeFilter, hp, hd, hc]
  unfold HomePageView_queryset
  rw [key v1, key v2]
  congr 1
  exact List.filter_congr (fun p _ => (absorb v1 p).trans (absorb v2 p).symm)

/-- C3: neither the home listing nor the category listing ever renders a
post whose category is unpublished, for any viewer including the post's
author.  The home queryset filters on the category's published flag
directly; the category route relies on `get_object_or_404(Category,
slug=..., is_published=True)` aborting the request with a 404, together
with referential integrity (every post's category row is in the category
table) and uniqueness of category slugs. -/
theorem listings_never_show_unpublished_category (db : DB) (user : Option UserT)
    (now : Nat) (slug : String)
    (hInt : ∀ p ∈ db.posts, p.category ∈ db.categories)
    (hUniq : ∀ c1 ∈ db.categories, ∀ c2 ∈ db.categories, c1.slug = c2.slug → c1 = c2) :
    (∀ p ∈ HomePageView_queryset db user now, p.category.is_published = true) ∧
    (∀ l, CategoryView_render db user now slug = some l →
      ∀ p ∈ l, p.category.is_published = true) := by
  constructor
  · intro p hp
    rw [HomePageView_queryset, mem_orderByPubDateDesc, List.mem_filter] at hp
    have := hp.2
    simp only [homeFilter, Bool.and_eq_true] at this
    exact this.2
  · intro l hl p hp
    rw [CategoryView_render] at hl
    by_cases hc : db.categories.any (fun c => c.slug == slug && c.is_published)
    · rw [if_pos hc] at hl
      obtain ⟨c, hcmem, hcprop⟩ := List.any_eq_true.mp hc
      rw [Bool.and_eq_true, beq_iff_eq] at hcprop
      cases hl
      rw [CategoryView_queryset, mem_orderByPubDateDesc, List.mem_filter] at hp
      have hmem : p ∈ db.posts := by
        rw [get_visible_posts_eq_filter, List.mem_filter] at hp
        exact hp.1.1
      have hslug : p.category.slug = slug := by
        have := hp.2
        simp only [categoryFilter, Bool.and_eq_true, beq_iff_eq] at this
        exact this.2
      have : p.category = c :=
        hUniq p.category (hInt p hmem) c hcmem (hslug.trans hcprop.1.symm)
      rw [this]
      exact hcprop.2
    · rw [if_neg hc] at hl
      exact absurd hl (by simp)

def dbC3 : DB :=
  { posts := [pW], categories := [pW.category], comments := [], nextCommentId := 0 }

/-- Witness for C3 at a concrete input: the concrete database satisfies
referential integrity and slug uniqueness, and the one post the category
route renders has a published category. -/
theorem listings_never_show_unpublished_category_witness :
    pW.category.is_published = true :=
  (listings_never_show_unpublished_category dbC3 none 10 "c"
    (by decide) (by decide)).2 (CategoryView_queryset dbC3 none 10 "c") (by decide)
    pW (by decide)

/-- C6: every listing route orders its result by publication date
descending, and pagination uses the fixed page size 10 of the base list
view: with 25 posts in the listing, page 1 is the first 10 posts of the
descending order and page 3 is the last 5 (positions 21-25). -/
theorem listing_ordered_and_paginated (db : DB) (user : Option UserT) (now : Nat)
    (slug username : String) :
    List.Sorted pubDateGE (HomePageView_queryset db user now) ∧
    List.Sorted pubDateGE (CategoryView_queryset db user now slug) ∧
    List.Sorted pubDateGE (ProfileView_queryset db user now username) ∧
    List.Sorted pubDateGE (PostListView_queryset db user now) ∧
    ((HomePageView_queryset db user now).length = 25 →
      paginatePage paginate_by 1 (HomePageView_queryset db user now) =
        (HomePageView_queryset db user now).take 10 ∧
      paginatePage paginate_by 3 (HomePageView_queryset db user now) =
        (HomePageView_queryset db user now).drop 20 ∧
      (paginatePage paginate_by 3 (HomePageView_queryset db user now)).length = 5) := by
  refine ⟨List.sorted_insertionSort pubDateGE _, List.sorted_insertionSort pubDateGE _,
    List.sorted_insertionSort pubDateGE _, List.sorted_insertionSort pubDateGE _, ?_⟩
  intro hlen
  refine ⟨rfl, ?_, ?_⟩
  · apply List.take_of_length_le
    rw [List.length_drop, hlen]
    decide
  · rw [paginatePage, List.length_take, List.length_drop, hlen]
    decide

def catW : Category := { id := 1, slug := "c", is_published := true }

def db25 : DB :=
  { posts := (List.range 25).map (fun i =>
      { id := i, title := "", text := ""
        author := { id := 0, username := "a" }
        category := catW
        pub_date := 25 - i, is_published := true })
    categories := [catW], comments := [], nextCommentId := 0 }

/-- Witness for C6: a concrete home listing of 25 posts, where page 3 is
the last five posts of the descending order. -/
theorem listing_ordered_and_paginated_witness :
    paginatePage paginate_by 3 (HomePageView_queryset db25 none 1000) =
      (HomePageView_queryset db25 none 1000).drop 20 ∧
    (paginatePage paginate_by 3 (HomePageView_queryset db25 none 1000)).length = 5 :=
  ((listing_ordered_and_paginated db25 none 1000 "c" "a").2.2.2.2 (by decide)).2

/-- The responses a request in this view layer can end in. -/
inductive Response where
  | rendered (postId : Nat)
  | notFound
  | forbidden
  | redirectPostDetail (postId : Nat)
  | redirectIndex
  | redirectLogin
deriving DecidableEq, Repr

/-- `get_object_or_404(Post, pk=...)`. -/
def findPost (db : DB) (pid : Nat) : Option Post :=
  db.posts.find? (fun p => p.id == pid)

/-- `get_object_or_404(Comment, pk=...)`. -/
def findComment (db : DB) (cid : Nat) : Option Comment :=
  db.comments.find? (fun c => c.id == cid)

/-- Whether the request user is the given author: `author == request.user`
is false whenever the request user is `AnonymousUser`. -/
def isAuthor (user : Option UserT) (author : UserT) : Bool :=
  match user with
  | some u => author.id == u.id
  | none => false

/-- Embedding of `PostDetailView.dispatch` (views.py lines 69-75): 404 on
a missing post, 404 when the post is unpublished and the request user is
not its author, otherwise render the post.  Neither `pub_date` nor the
category's published flag is consulted. -/
def PostDetailView_dispatch (db : DB) (user : Option UserT) (postId : Nat) : Response :=
  match findPost db postId with
  | none => .notFound
  | some post =>
    if !post.is_published && !(isAuthor user post.author) then .notFound
    else .rendered post.id

/-- C4: the detail view renders a stored post p iff p is published or the
viewer is its author, and otherwise the request ends in a not-found
response — never a permission-denied response — with `pub_date` and the
category's published flag playing no role. -/
theorem detail_renders_iff (db : DB) (user : Option UserT) (postId : Nat) (p : Post)
    (hfind : findPost db postId = some p) :
    (PostDetailView_dispatch db user postId = .rendered p.id ↔
      (p.is_published = true ∨ isAuthor user p.author = true)) ∧
    (¬(p.is_published = true ∨ isAuthor user p.author = true) →
      PostDetailView_dispatch db user postId = .notFound) := by
  rw [PostDetailView_dispatch, hfind]
  constructor
  · cases hp : p.is_published <;> cases ha : isAuthor user p.author <;> simp [hp, ha]
  · cases hp : p.is_published <;> cases ha : isAuthor user p.author <;> simp [hp, ha]

def pHidden : Post :=
  { id := 7, title := "d", text := "x"
    author := { id := 1, username := "alice" }
    category := { id := 1, slug := "c", is_published := true }
    pub_date := 5, is_published := false }

def dbDetail : DB :=
  { posts := [pHidden], categories := [pHidden.category], comments := [], nextCommentId := 0 }

/-- Witness for C4: an unpublished post viewed by a non-author ends in a
not-found response. -/
theorem detail_renders_iff_witness :
    PostDetailView_dispatch dbDetail (some { id := 2, username := "bob" }) 7 = .notFound :=
  (detail_renders_iff dbDetail (some { id := 2, username := "bob" }) 7 pHidden
    (by decide)).2 (by decide)

/-- Embedding of `PostUpdateView` (views.py lines 147-163).  Its
`dispatch` runs before the login check of `LoginRequiredMixin` (the
mixin's check sits in `super().dispatch`): resolve the post (404 if
absent); a non-author — including an anonymous user — is redirected to
the post's detail page with no mutation; the author proceeds, the form
updates the post, and `form_valid` redirects to the post's detail page. -/
def PostUpdateView_dispatch (db : DB) (user : Option UserT) (postId : Nat)
    (newTitle newText : String) : Response × DB :=
  match findPost db postId with
  | none => (.notFound, db)
  | some inst =>
    if !(isAuthor user inst.author) then (.redirectPostDetail inst.id, db)
    else
      (.redirectPostDetail inst.id,
        { db with posts := db.posts.map (fun p =>
            if p.id == postId then { p with title := newTitle, text := newText } else p) })

/-- Embedding of `PostDeleteView` (views.py lines 165-177): resolve the
post (404 if absent); a non-author is redirected to the index with no
mutation; the author proceeds, the post is deleted (its comments cascade,
per the data model) and `success_url` redirects to the index. -/
def PostDeleteView_dispatch (db : DB) (user : Option UserT) (postId : Nat) :
    Response × DB :=
  match findPost db postId with
  | none => (.notFound, db)
  | some inst =>
    if !(isAuthor user inst.author) then (.redirectIndex, db)
    else
      (.redirectIndex,
        { db with posts := db.posts.filter (fun p => !(p.id == postId))
                  comments := db.comments.filter (fun c => !(c.postId == postId)) })

/-- Embedding of `CommentUpdateView` through `CommentChangeView.dispatch`
(views.py lines 206-223): resolve the comment (404 if absent); a
non-author is redirected to the parent post's detail page with no
mutation; the author proceeds and `get_success_url` redirects to the
parent post's detail page. -/
def CommentUpdateView_dispatch (db : DB) (user : Option UserT) (commentId : Nat)
    (newText : String) : Response × DB :=
  match findComment db commentId with
  | none => (.notFound, db)
  | some inst =>
    if !(isAuthor user inst.author) then (.redirectPostDetail inst.postId, db)
    else
      (.redirectPostDetail inst.postId,
        { db with comments := db.comments.map (fun c =>
            if c.id == commentId then { c with text := newText } else c) })

/-- Embedding of `CommentDeleteView` through `CommentChangeView.dispatch`
(views.py lines 206-229): as for comment update, with deletion as the
mutation. -/
def CommentDeleteView_dispatch (db : DB) (user : Option UserT) (commentId : Nat) :
    Response × DB :=
  match findComment db commentId with
  | none => (.notFound, db)
  | some inst =>
    if !(isAuthor user inst.author) then (.redirectPostDetail inst.postId, db)
    else
      (.redirectPostDetail inst.postId,
        { db with comments := db.comments.filter (fun c => !(c.id == commentId)) })

/-- C5: an authenticated non-author's update or delete request mutates
nothing and ends in a redirect, never an error page: to the post's detail
page for post update, to the index for post delete, and to the parent
post's detail page for comment update and delete. -/
theorem nonauthor_mutations_redirect (db : DB) (u : UserT) (p : Post) (c : Comment)
    (pid cid : Nat) (newTitle newText : String)
    (hp : findPost db pid = some p) (hpa : p.author.id ≠ u.id)
    (hc : findComment db cid = some c) (hca : c.author.id ≠ u.id) :
    PostUpdateView_dispatch db (some u) pid newTitle newText =
      (.redirectPostDetail p.id, db) ∧
    PostDeleteView_dispatch db (some u) pid = (.redirectIndex, db) ∧
    CommentUpdateView_dispatch db (some u) cid newText =
      (.redirectPostDetail c.postId, db) ∧
    CommentDeleteView_dispatch db (some u) cid = (.redirectPostDetail c.postId, db) := by
  have hpa' : isAuthor (some u) p.author = false := by
    simp [isAuthor, hpa]
  have hca' : isAuthor (some u) c.author = false := by
    simp [isAuthor, hca]
  refine ⟨?_, ?_, ?_, ?_⟩
  · simp [PostUpdateView_dispatch, hp, hpa']
  · simp [PostDeleteView_dispatch, hp, hpa']
  · simp [CommentUpdateView_dispatch, hc, hca']
  · simp [CommentDeleteView_dispatch, hc, hca']

def cW : Comment :=
  { id := 3, text := "hi", author := { id := 1, username := "alice" }, postId := 1 }

def dbMut : DB :=
  { posts := [pW], categories := [pW.category], comments := [cW], nextCommentId := 4 }

/-- Witness for C5: a concrete non-author attempt on a stored post and a
stored comment is deflected with the database unchanged. -/
theorem nonauthor_mutations_redirect_witness :
    PostUpdateView_dispatch dbMut (some { id := 2, username := "bob" }) 1 "t2" "x2" =
      (.redirectPostDetail 1, dbMut) ∧
    PostDeleteView_dispatch dbMut (some { id := 2, username := "bob" }) 1 =
      (.redirectIndex, dbMut) := by
  have h := nonauthor_mutations_redirect dbMut { id := 2, username := "bob" } pW cW 1 3
    "t2" "x2" (by decide) (by decide) (by decide) (by decide)
  exact ⟨h.1, h.2.1⟩

/-- Embedding of `CommentCreateView` (views.py lines 186-199): `dispatch`
resolves and holds the target post (404 if absent) before
`super().dispatch` reaches the login check, which redirects an anonymous
user to the login page; on a valid submission `form_valid` stamps
`author = request.user` and `post = held post` on the new comment before
persisting, and `get_success_url` redirects to the held post's detail
page. -/
def CommentCreateView_dispatch (db : DB) (user : Option UserT) (postId : Nat)
    (text : String) : Response × DB :=
  match findPost db postId with
  | none => (.notFound, db)
  | some post =>
    match user with
    | none => (.redirectLogin, db)
    | some u =>
      (.redirectPostDetail post.id,
        { db with
            comments := db.comments ++
              [{ id := db.nextCommentId, text := text, author := u, postId := post.id }]
            nextCommentId := db.nextCommentId + 1 })

/-- C7: a comment-create request by an authenticated viewer resolves the
target post — ending in a not-found response when it is absent — and on a
valid submission persists exactly one new comment stamped with the viewer
as author and the resolved post as parent, then redirects to that post's
detail page. -/
theorem comment_create_stamps_author_and_post (db : DB) (u : UserT) (pid : Nat)
    (text : String) :
    (findPost db pid = none → CommentCreateView_dispatch db (some u) pid text =
      (.notFound, db)) ∧
    (∀ post, findPost db pid = some post →
      CommentCreateView_dispatch db (some u) pid text =
        (.redirectPostDetail post.id,
          { db with
              comments := db.comments ++
                [{ id := db.nextCommentId, text := text, author := u, postId := post.id }]
              nextCommentId := db.nextCommentId + 1 })) := by
  constructor
  · intro hnone
    rw [CommentCreateView_dispatch, hnone]
  · intro post hsome
    rw [CommentCreateView_dispatch, hsome]

/-- Witness for C7: a concrete authenticated comment submission appends
the stamped comment and redirects to the post's detail page. -/
theorem comment_create_stamps_author_and_post_witness :
    CommentCreateView_dispatch dbMut (some { id := 2, username := "bob" }) 1 "nice" =
      (.redirectPostDetail 1,
        { dbMut with
            comments := dbMut.comments ++
              [{ id := 4, text := "nice", author := { id := 2, username := "bob" },
                 postId := 1 }]
            nextCommentId := 5 }) :=
  (comment_create_stamps_author_and_post dbMut { id := 2, username := "bob" } 1
    "nice").2 pW (by decide)
